import Mathlib

/-!
Verification of the travel-blog orchestration core (itinerary state machine,
daily move decision, place selection and deduplication policy).

The JavaScript source is shallowly embedded: SQLite tables become Lean lists
of records, external calls (text generation, JSON parsing of free text,
randomness) become explicit oracle parameters, JS numbers become rationals,
and the sequential non-transactional database writes of the move script
become a step-indexed state transformer with an explicit failure point.
-/

namespace Giovanni

/-- JS Math.round on a rational: round half away from zero is what JS does for
positive values; the source only rounds non-negative quantities, and
Math.round(x) = floor(x + 0.5) for those. -/
def jsRound (x : ℚ) : ℤ := ⌊x + 1/2⌋

/-- From move_to_next_location.js, determineTransportType(distance):
strict thresholds at 700 km and 300 km. -/
def determineTransportType (distance : ℚ) : String :=
  if distance > 700 then "airplane"
  else if distance > 300 then "train"
  else "bus"

/-- From move_to_next_location.js, estimateTravelTime(distance, transportType),
in minutes; Math.ceil becomes the integer ceiling. -/
def estimateTravelTime (distance : ℚ) (transportType : String) : ℤ :=
  if transportType = "airplane" then 60 + ⌈distance / 700 * 60⌉
  else if transportType = "train" then ⌈distance / 60 * 60⌉
  else if transportType = "bus" then ⌈distance / 50 * 60⌉
  else ⌈distance / 50 * 60⌉

/-- From move_to_next_location.js, estimatePrice(distance, transportType). -/
def estimatePrice (distance : ℚ) (transportType : String) : ℤ :=
  if transportType = "airplane" then jsRound (50 + distance * (15/100))
  else if transportType = "train" then jsRound (10 + distance * (1/10))
  else if transportType = "bus" then jsRound (5 + distance * (8/100))
  else jsRound (10 + distance * (1/10))

/-! Section: Tolerant JSON parsing (TravelPlannerService.safeJsonParse)

The regex `\[[\s\S]*\]|\{[\s\S]*\}` scans for the first position holding an
opening bracket that still has a matching-kind closing bracket somewhere
after it; the greedy `[\s\S]*` makes the match run to the LAST such closing
bracket in the string.  `extractJson` reproduces exactly that candidate
substring.  JSON.parse itself is an external runtime facility, so it is a
parameter `parse`; a JS exception is `none`. -/

/-- Index of the last occurrence of a character in a list (junk when absent;
all uses are guarded by membership). -/
def lastIndexOf (c : Char) (l : List Char) : Nat :=
  l.length - 1 - l.reverse.indexOf c

/-- Scan for the first opening bracket with a matching-kind closer after it,
returning the segment up to the last such closer, as the regex
`\[[\s\S]*\]|\{[\s\S]*\}` does. -/
def matchFrom : List Char → Option (List Char)
  | [] => none
  | c :: rest =>
    if c = '[' ∧ ']' ∈ rest then
      some (c :: rest.take (lastIndexOf ']' rest + 1))
    else if c = '{' ∧ '}' ∈ rest then
      some (c :: rest.take (lastIndexOf '}' rest + 1))
    else matchFrom rest

/-- The first bracket-delimited candidate substring of the input, as matched
by the source's regex (first opening bracket to the last closing bracket of
the same kind). -/
def extractJson (s : String) : Option String :=
  (matchFrom s.data).map (fun l => String.mk l)

/-- From TravelPlannerService.safeJsonParse: strict parse first; on failure,
parse the regex-extracted candidate; on failure again (or no candidate, in
which case the original error is re-thrown into the inner catch), fall back
to the empty array.  `parse` abstracts JSON.parse, `emptyArr` is the `[]`
fallback value. -/
def safeJsonParse {α : Type} (parse : String → Option α) (emptyArr : α)
    (jsonString : String) : α :=
  match parse jsonString with
  | some v => v
  | none =>
    match extractJson jsonString with
    | some sub =>
      match parse sub with
      | some v => v
      | none => emptyArr
    | none => emptyArr

/-! Section: Relational data model (database/init.js)

Tables become lists of records; SQLite column defaults from the CREATE TABLE
statements (is_current 0, is_visited 0, current_day 1,
included_in_post 0) appear where rows are inserted. -/

/-- A row of the locations table. -/
structure DbLocation where
  id : ℕ
  name : String
  country : String
  region : String
  lat : ℚ
  lng : ℚ
  timezone : String
  currency : String
  language : String
  is_current : Bool
  is_visited : Bool
  planned_arrival : ℤ
  planned_duration : ℕ
  current_day : ℕ
  order_in_journey : ℕ
deriving Repr, DecidableEq

/-- The opening_hours column of points_of_interest stores
JSON.stringify({weekday, weekend}); reading it back goes through JSON.parse
inside a try/catch, so the embedded column distinguishes an absent value, a
malformed value rejected by the parse, and the parsed record whose two
fields may each be absent. -/
inductive OpeningHours where
  | missing : OpeningHours
  | malformed : OpeningHours
  | hoursOf (weekday weekend : Option String) : OpeningHours
deriving Repr, DecidableEq

/-- A row of the points_of_interest table (the columns the orchestration
core reads and writes). -/
structure PointOfInterest where
  id : ℕ
  location_id : ℕ
  name : String
  type : String
  description : String
  highlights : String
  opening_hours : OpeningHours
  website : Option String
deriving Repr, DecidableEq

/-- A row of the visits table. -/
structure VisitRow where
  id : ℕ
  poi_id : ℕ
  visit_date : ℕ
  included_in_post : Bool
deriving Repr, DecidableEq

/-- A row of the transportation table. -/
structure TransportationRow where
  from_location_id : ℕ
  to_location_id : ℕ
  type : String
  departure_time : ℤ
  arrival_time : ℤ
  duration_minutes : ℤ
  distance_km : ℤ
  price : ℤ
  currency : String
deriving Repr, DecidableEq

/-- The database state the move/decision procedures act on. -/
structure Db where
  locations : List DbLocation
  transportation : List TransportationRow
deriving Repr, DecidableEq

/-- Number of locations marked current. -/
def countCurrent (db : Db) : ℕ :=
  (db.locations.filter (fun l => l.is_current)).length

/-! Section: Daily move decision (app.js checkLocationStatus) -/

/-- Models the JS idiom parseInt(env) or default: an unset or unparsable
variable gives the default, and so does an explicit 0 (0 is falsy). -/
def parseIntOr (defaultVal : ℕ) : Option ℕ → ℕ
  | none => defaultVal
  | some n => if n = 0 then defaultVal else n

/-- The attraction POIs of a location having no visits row at all: the
LEFT JOIN in checkLocationStatus keeps the rows where v.poi_id IS NULL,
regardless of included_in_post. -/
def unvisitedForMove (pois : List PointOfInterest) (visits : List VisitRow)
    (locationId : ℕ) : List PointOfInterest :=
  pois.filter (fun poi =>
    poi.location_id == locationId && poi.type == "attraction" &&
      visits.all (fun v => v.poi_id != poi.id))

/-- The COUNT(*) of the unvisited-attractions query in checkLocationStatus. -/
def countUnvisitedAttractions (pois : List PointOfInterest)
    (visits : List VisitRow) (locationId : ℕ) : ℕ :=
  (unvisitedForMove pois visits locationId).length

/-- From app.js checkLocationStatus: load the current location, then decide
to move when the planned duration is reached, the hard cap is reached, or no
unvisited attraction remains and the minimum stay has passed. -/
def checkLocationStatus (locations : List DbLocation)
    (pois : List PointOfInterest) (visits : List VisitRow)
    (minDaysEnv maxDaysEnv : Option ℕ) : Bool :=
  match locations.find? (fun l => l.is_current) with
  | none => false
  | some currentLocation =>
    let unvisitedCount := countUnvisitedAttractions pois visits currentLocation.id
    let noMoreAttractions := unvisitedCount == 0
    let minDays := parseIntOr 7 minDaysEnv
    let maxDays := parseIntOr 21 maxDaysEnv
    let reachedMinDuration :=
      decide (currentLocation.planned_duration ≤ currentLocation.current_day)
    let reachedMaxDuration := decide (maxDays ≤ currentLocation.current_day)
    let noContentAndMinTime :=
      noMoreAttractions && decide (minDays ≤ currentLocation.current_day)
    reachedMinDuration || reachedMaxDuration || noContentAndMinTime

/-! Section: Place availability (TravelPlannerService.selectPlacesToVisit) -/

/-- The rows of the availability query in selectPlacesToVisit: LEFT JOIN of
points_of_interest with visits, keeping a row when the POI has no visit at
all (the NULL row) or one per visit with included_in_post = 0.  A POI with
several such visits therefore appears several times, exactly as in the SQL
result set. -/
def availableRows (pois : List PointOfInterest) (visits : List VisitRow)
    (locationId : ℕ) (ty : String) : List PointOfInterest :=
  pois.flatMap (fun poi =>
    if poi.location_id == locationId && poi.type == ty then
      let vs := visits.filter (fun v => v.poi_id == poi.id)
      if vs.isEmpty then [poi]
      else (vs.filter (fun v => v.included_in_post == false)).map (fun _ => poi)
    else [])

/-- A POI is unconsumed when it has no visit row, or some visit row with
included_in_post = 0 (the spec's availability notion). -/
def unconsumed (visits : List VisitRow) (poi : PointOfInterest) : Prop :=
  (visits.filter (fun v => v.poi_id == poi.id)) = [] ∨
    ∃ v ∈ visits, v.poi_id = poi.id ∧ v.included_in_post = false

instance (visits : List VisitRow) (poi : PointOfInterest) :
    Decidable (unconsumed visits poi) := by
  unfold unconsumed; infer_instance

/-! Section: Opening-hours check and selection (selectPlacesToVisit, lines 712-763)

Dates are day numbers with day-of-week = date mod 7 and 0 = Sunday, matching
JS Date.getDay; "yesterday" is date - 1.  JS String.prototype.toLowerCase
and includes are modelled over the character list. -/

/-- JS String.prototype.toLowerCase (ASCII as used by the source). -/
def jsToLower (s : String) : String := String.mk (s.data.map Char.toLower)

/-- Whether the first list is a prefix of the second, as Bool. -/
def hasPrefixList : List Char → List Char → Bool
  | [], _ => true
  | _ :: _, [] => false
  | n :: ns, h :: hs => n = h && hasPrefixList ns hs

/-- Whether the first list occurs as a contiguous segment of the second. -/
def containsList (needle : List Char) : List Char → Bool
  | [] => needle.isEmpty
  | h :: hs => hasPrefixList needle (h :: hs) || containsList needle hs

/-- JS String.prototype.includes. -/
def jsIncludes (haystack needle : String) : Bool :=
  containsList needle.data haystack.data

/-- The open-yesterday filter of selectPlacesToVisit: missing or malformed
opening hours count as open; otherwise pick the weekend entry when
yesterday is Saturday or Sunday, else the weekday entry; a missing entry
counts as open, a present entry is closed exactly when its lower-cased text
contains "closed". -/
def isOpenYesterday (poi : PointOfInterest) (date : ℕ) : Bool :=
  match poi.opening_hours with
  | OpeningHours.missing => true
  | OpeningHours.malformed => true
  | OpeningHours.hoursOf weekday weekend =>
    let visitDate := date - 1
    let isWeekend := visitDate % 7 == 0 || visitDate % 7 == 6
    let hoursToCheck := if isWeekend then weekend else weekday
    match hoursToCheck with
    | none => true
    | some h => !(jsIncludes (jsToLower h) "closed")

/-- JS Math.floor(random * length): the uniform index draw. -/
def randIndex (r : ℚ) (n : ℕ) : ℕ := (⌊r * (n : ℚ)⌋).toNat

/-- JS logical-or defaulting for optional strings: an absent or empty
string falls back to the default. -/
def jsOr (o : Option String) (d : String) : String :=
  match o with
  | none => d
  | some s => if s = "" then d else s

/-- A generated place as parsed from the model output (each field may be
absent in the free-text JSON). -/
structure GenPlace where
  name : Option String
  description : Option String
  weekdayHours : Option String
  weekendHours : Option String
  website : Option String
  facts : List String
deriving Repr, DecidableEq

/-- JSON.stringify of a list of strings, as stored in the highlights
column (external builtin; the orchestration core never reads it back). -/
def jsonStringifyList (l : List String) : String :=
  "[" ++ String.intercalate "," (l.map (fun s => "\"" ++ s ++ "\"")) ++ "]"

/-- The INSERT built from one generated place in selectPlacesToVisit, with
the per-type fallback values of the two symmetric code blocks. -/
def mkPoiFromGen (ty locationName : String) (locationId newId : ℕ)
    (g : GenPlace) : PointOfInterest :=
  { id := newId, location_id := locationId,
    name := jsOr g.name
      (if ty = "restaurant" then "Restaurant in " ++ locationName
       else "Attraction in " ++ locationName),
    type := ty,
    description := jsOr g.description
      (if ty = "restaurant" then "A local restaurant" else "A local attraction"),
    highlights := jsonStringifyList g.facts,
    opening_hours := OpeningHours.hoursOf
      (some (jsOr g.weekdayHours
        (if ty = "restaurant" then "12:00-22:00" else "9:00-17:00")))
      (some (jsOr g.weekendHours
        (if ty = "restaurant" then "12:00-23:00" else "10:00-16:00"))),
    website := g.website }

/-- The synthesized always-available default POI of selectPlacesToVisit
(Historic Center / Local Restaurant). -/
def defaultPoiFor (ty locationName : String) (locationId newId : ℕ) :
    PointOfInterest :=
  if ty = "restaurant" then
    { id := newId, location_id := locationId,
      name := "Local Restaurant in " ++ locationName, type := "restaurant",
      description := "A cozy restaurant serving authentic local cuisine in "
        ++ locationName ++ ".",
      highlights := jsonStringifyList ["Traditional dishes", "Local ingredients"],
      opening_hours := OpeningHours.hoursOf (some "12:00-22:00") (some "12:00-23:00"),
      website := none }
  else
    { id := newId, location_id := locationId,
      name := "Historic Center of " ++ locationName, type := "attraction",
      description := "The beautiful historic center of " ++ locationName
        ++ " with its charming streets and buildings.",
      highlights := jsonStringifyList ["Architectural beauty", "Local atmosphere"],
      opening_hours := OpeningHours.hoursOf (some "00:00-23:59") (some "00:00-23:59"),
      website := none }

/-- The refresh query after regeneration: all POIs of the type at the
location, in table order. -/
def refreshedOfType (pois : List PointOfInterest) (locationId : ℕ)
    (ty : String) : List PointOfInterest :=
  pois.filter (fun p => p.location_id == locationId && p.type == ty)

/-- The rows inserted from the generated places, with consecutive ids. -/
def insertedFromGen (ty locationName : String) (locationId nextId : ℕ)
    (gen : List GenPlace) : List PointOfInterest :=
  gen.enum.map (fun pr => mkPoiFromGen ty locationName locationId (nextId + pr.1) pr.2)

/-- Stand-in for the undefined value of a JS out-of-bounds index; never
reached when the random draw lies in the unit interval. -/
def phantomPoi : PointOfInterest :=
  { id := 0, location_id := 0, name := "", type := "", description := "",
    highlights := "", opening_hours := OpeningHours.missing, website := none }

/-- The per-type body of selectPlacesToVisit up to the open-hours filter:
take the available (unconsumed) rows; when none remain, regenerate from the
external call and re-read every POI of the type, or synthesize the single
default POI when generation yielded nothing.  Returns the selection list
and the updated points_of_interest table. -/
def selectionPool (pois : List PointOfInterest) (visits : List VisitRow)
    (locationId : ℕ) (ty locationName : String) (gen : List GenPlace)
    (nextId : ℕ) : List PointOfInterest × List PointOfInterest :=
  let avail := availableRows pois visits locationId ty
  if avail.isEmpty then
    if gen.isEmpty then
      let d := defaultPoiFor ty locationName locationId nextId
      ([d], pois ++ [d])
    else
      let pois2 := pois ++ insertedFromGen ty locationName locationId nextId gen
      (refreshedOfType pois2 locationId ty, pois2)
  else (avail, pois)

/-- The openAttractions / openRestaurants binding: the selection list
filtered to the POIs open yesterday. -/
def openPool (pois : List PointOfInterest) (visits : List VisitRow)
    (locationId : ℕ) (ty locationName : String) (gen : List GenPlace)
    (nextId : ℕ) (date : ℕ) : List PointOfInterest :=
  (selectionPool pois visits locationId ty locationName gen nextId).1.filter
    (fun p => isOpenYesterday p date)

/-- The per-type tail of selectPlacesToVisit: filter the selection list to
the POIs open yesterday, pick uniformly at random from the filtered list,
and fall back to the first element of the unfiltered list when the filtered
list is empty (null only when even the unfiltered list is empty). -/
def selectForType (pois : List PointOfInterest) (visits : List VisitRow)
    (locationId : ℕ) (ty locationName : String) (gen : List GenPlace)
    (nextId : ℕ) (date : ℕ) (r : ℚ) :
    Option PointOfInterest × List PointOfInterest :=
  let pool := selectionPool pois visits locationId ty locationName gen nextId
  let opn := openPool pois visits locationId ty locationName gen nextId date
  let selected :=
    if 0 < opn.length then
      some (opn.getD (randIndex r opn.length) phantomPoi)
    else if 0 < pool.1.length then some (pool.1.headD phantomPoi)
    else none
  (selected, pool.2)

/-- TravelPlannerService.selectPlacesToVisit: look up the location (a
missing location throws, and the catch block returns the null pair), then
run the attraction and the restaurant halves; generation outcomes and
random draws are oracle inputs, nextId models the autoincrement counter. -/
def selectPlacesToVisit (locations : List DbLocation)
    (pois : List PointOfInterest) (visits : List VisitRow) (locationId : ℕ)
    (genA genR : List GenPlace) (nextId : ℕ) (date : ℕ) (rA rR : ℚ) :
    Option PointOfInterest × Option PointOfInterest :=
  match locations.find? (fun l => l.id == locationId) with
  | none => (none, none)
  | some location =>
    let a := selectForType pois visits locationId "attraction" location.name
      genA nextId date rA
    let rest := selectForType a.2 visits locationId "restaurant" location.name
      genR (nextId + (a.2.length - pois.length)) date rR
    (a.1, rest.1)

/-! Section: Itinerary planner (TravelPlannerService)

External calls (country choice, candidate generation, random draws) are
oracle inputs; the visited set is computed from the locations table as in
getVisitedCities.  Case folding models JS toLowerCase over the character
list (the names involved use the same case on both sides of every
comparison). -/

/-- getVisitedCities: the lower-cased (name, country) pairs of every
location with is_visited = 1 or is_current = 1. -/
def getVisitedCities (locations : List DbLocation) : List (String × String) :=
  (locations.filter (fun l => l.is_visited || l.is_current)).map
    (fun l => (jsToLower l.name, jsToLower l.country))

/-- getTimezoneForCountry with its default. -/
def getTimezoneForCountry (country : String) : String :=
  match country with
  | "Serbia" => "Europe/Belgrade"
  | "Croatia" => "Europe/Zagreb"
  | "Italy" => "Europe/Rome"
  | "Montenegro" => "Europe/Podgorica"
  | "Bulgaria" => "Europe/Sofia"
  | "Hungary" => "Europe/Budapest"
  | "Greece" => "Europe/Athens"
  | "Romania" => "Europe/Bucharest"
  | "North Macedonia" => "Europe/Skopje"
  | "Czech Republic" => "Europe/Prague"
  | "Austria" => "Europe/Vienna"
  | "Slovenia" => "Europe/Ljubljana"
  | "Albania" => "Europe/Tirane"
  | "Poland" => "Europe/Warsaw"
  | "Slovakia" => "Europe/Bratislava"
  | _ => "Europe/Belgrade"

/-- getCurrencyForCountry with its default. -/
def getCurrencyForCountry (country : String) : String :=
  match country with
  | "Serbia" => "RSD"
  | "Croatia" => "EUR"
  | "Italy" => "EUR"
  | "Montenegro" => "EUR"
  | "Bulgaria" => "BGN"
  | "Hungary" => "HUF"
  | "Greece" => "EUR"
  | "Romania" => "RON"
  | "North Macedonia" => "MKD"
  | "Czech Republic" => "CZK"
  | "Austria" => "EUR"
  | "Slovenia" => "EUR"
  | "Albania" => "ALL"
  | "Poland" => "PLN"
  | "Slovakia" => "EUR"
  | _ => "EUR"

/-- getLanguageForCountry with its default. -/
def getLanguageForCountry (country : String) : String :=
  match country with
  | "Serbia" => "Serbian"
  | "Croatia" => "Croatian"
  | "Italy" => "Italian"
  | "Montenegro" => "Montenegrin"
  | "Bulgaria" => "Bulgarian"
  | "Hungary" => "Hungarian"
  | "Greece" => "Greek"
  | "Romania" => "Romanian"
  | "North Macedonia" => "Macedonian"
  | "Czech Republic" => "Czech"
  | "Austria" => "German"
  | "Slovenia" => "Slovenian"
  | "Albania" => "Albanian"
  | "Poland" => "Polish"
  | "Slovakia" => "Slovak"
  | _ => "English"

/-- A backup-table town: precomputed name and coordinates. -/
structure BackupTown where
  name : String
  lat : ℚ
  lng : ℚ
deriving Repr, DecidableEq

/-- The static backup table of getBackupCity, in the source's insertion
order (Object.entries iterates in that order). -/
def backupCities : List (String × List BackupTown) :=
  [("Serbia",
    [⟨"Novi Sad", 452671/10000, 198335/10000⟩,
     ⟨"Subotica", 461000/10000, 196667/10000⟩,
     ⟨"Niš", 433200/10000, 219000/10000⟩,
     ⟨"Kragujevac", 440167/10000, 209167/10000⟩]),
   ("Croatia",
    [⟨"Rovinj", 450811/10000, 136387/10000⟩,
     ⟨"Split", 435081/10000, 164402/10000⟩,
     ⟨"Zadar", 441197/10000, 152422/10000⟩,
     ⟨"Dubrovnik", 426507/10000, 180944/10000⟩]),
   ("Italy",
    [⟨"Orvieto", 427173/10000, 121057/10000⟩,
     ⟨"Lucca", 438429/10000, 105027/10000⟩,
     ⟨"Matera", 406667/10000, 166000/10000⟩,
     ⟨"Siena", 433186/10000, 113306/10000⟩]),
   ("Montenegro",
    [⟨"Kotor", 424246/10000, 187712/10000⟩,
     ⟨"Budva", 422911/10000, 188400/10000⟩,
     ⟨"Herceg Novi", 424531/10000, 185375/10000⟩,
     ⟨"Cetinje", 423944/10000, 189147/10000⟩]),
   ("Bulgaria",
    [⟨"Plovdiv", 421421/10000, 247499/10000⟩,
     ⟨"Veliko Tarnovo", 430822/10000, 256325/10000⟩,
     ⟨"Sozopol", 424178/10000, 276953/10000⟩,
     ⟨"Nessebar", 426609/10000, 277192/10000⟩]),
   ("Hungary",
    [⟨"Sopron", 476817/10000, 165845/10000⟩,
     ⟨"Eger", 479025/10000, 203772/10000⟩,
     ⟨"Pécs", 460727/10000, 182324/10000⟩,
     ⟨"Szeged", 462530/10000, 201414/10000⟩]),
   ("Greece",
    [⟨"Nafplio", 375675/10000, 228016/10000⟩,
     ⟨"Ioannina", 396650/10000, 208536/10000⟩,
     ⟨"Corfu Town", 396243/10000, 199217/10000⟩,
     ⟨"Chania", 355138/10000, 240180/10000⟩]),
   ("Romania",
    [⟨"Sibiu", 457983/10000, 241255/10000⟩,
     ⟨"Brașov", 456427/10000, 255887/10000⟩,
     ⟨"Sighișoara", 462197/10000, 247922/10000⟩,
     ⟨"Cluj-Napoca", 467712/10000, 236236/10000⟩]),
   ("North Macedonia",
    [⟨"Ohrid", 411231/10000, 208016/10000⟩,
     ⟨"Bitola", 410297/10000, 213292/10000⟩,
     ⟨"Prilep", 413450/10000, 215500/10000⟩,
     ⟨"Kruševo", 413689/10000, 212489/10000⟩]),
   ("Czech Republic",
    [⟨"Český Krumlov", 488127/10000, 143175/10000⟩,
     ⟨"Karlovy Vary", 502333/10000, 128833/10000⟩,
     ⟨"Telč", 491822/10000, 154536/10000⟩,
     ⟨"Kutná Hora", 499481/10000, 152681/10000⟩]),
   ("Austria",
    [⟨"Hallstatt", 475622/10000, 136493/10000⟩,
     ⟨"Innsbruck", 472692/10000, 114041/10000⟩,
     ⟨"Salzburg", 478095/10000, 130550/10000⟩,
     ⟨"Graz", 470707/10000, 154395/10000⟩]),
   ("Slovenia",
    [⟨"Piran", 455275/10000, 135647/10000⟩,
     ⟨"Ptuj", 464200/10000, 158700/10000⟩,
     ⟨"Škofja Loka", 461644/10000, 143047/10000⟩,
     ⟨"Maribor", 465547/10000, 156467/10000⟩]),
   ("Albania",
    [⟨"Gjirokastër", 400758/10000, 201404/10000⟩,
     ⟨"Berat", 407058/10000, 199522/10000⟩,
     ⟨"Korçë", 406186/10000, 207808/10000⟩,
     ⟨"Shkodër", 420686/10000, 195031/10000⟩]),
   ("Poland",
    [⟨"Zamość", 507192/10000, 232525/10000⟩,
     ⟨"Wrocław", 511079/10000, 170385/10000⟩,
     ⟨"Toruń", 530100/10000, 186167/10000⟩,
     ⟨"Gdańsk", 543520/10000, 186466/10000⟩]),
   ("Slovakia",
    [⟨"Banská Štiavnica", 484598/10000, 188997/10000⟩,
     ⟨"Levoča", 490217/10000, 205850/10000⟩,
     ⟨"Košice", 487164/10000, 212611/10000⟩,
     ⟨"Bardejov", 492944/10000, 212736/10000⟩])]

/-- The JS lookup backupCities[country] with the Serbia fallback of
getBackupCity. -/
def backupFor (country : String) : List BackupTown :=
  match backupCities.find? (fun pr => pr.1 == country) with
  | some pr => pr.2
  | none =>
    match backupCities.find? (fun pr => pr.1 == "Serbia") with
    | some pr => pr.2
    | none => []

/-- Filter a country's backup towns to those whose lower-cased
(name, country) pair is not in the visited set. -/
def filterUnvisited (countryName : String) (cities : List BackupTown)
    (visited : List (String × String)) : List BackupTown :=
  cities.filter (fun city =>
    !(visited.any (fun v =>
      v.1 == jsToLower city.name && v.2 == jsToLower countryName)))

/-- The for-of loop over Object.entries(backupCities) in getBackupCity:
first country other than the requested one still holding an unvisited
backup town, together with its filtered list. -/
def findOtherCountry (country : String) (visited : List (String × String)) :
    List (String × List BackupTown) → Option (String × List BackupTown)
  | [] => none
  | (cn, cities) :: rest =>
    if cn = country then findOtherCountry country visited rest
    else
      let avail := filterUnvisited cn cities visited
      if avail.isEmpty then findOtherCountry country visited rest
      else some (cn, avail)

/-- The location descriptor returned by the planner.  The JS records carry
population, description and transportHubs only on the generation path, so
those fields are optional (undefined becomes none). -/
structure CityInfo where
  name : String
  country : String
  region : String
  lat : ℚ
  lng : ℚ
  timezone : String
  currency : String
  language : String
  population : Option ℕ
  description : Option String
  transportHubs : Option (List String)
deriving Repr, DecidableEq

/-- Stand-in for a JS out-of-bounds index over the backup lists; never
reached when the random draw lies in the unit interval. -/
def phantomTown : BackupTown := ⟨"", 0, 0⟩

/-- The descriptor built from a backup town of a country. -/
def backupDescriptor (countryName : String) (city : BackupTown) : CityInfo :=
  { name := city.name, country := countryName, region := "",
    lat := city.lat, lng := city.lng,
    timezone := getTimezoneForCountry countryName,
    currency := getCurrencyForCountry countryName,
    language := getLanguageForCountry countryName,
    population := none, description := none, transportHubs := none }

/-- TravelPlannerService.getBackupCity: unvisited backup town of the
requested country when one remains; else the first other country with an
unvisited town; else the first town of the requested country's list with
perturbed coordinates and the name suffixed " Outskirts".  The random
draws r, rLat, rLng are oracle inputs in the unit interval. -/
def getBackupCity (country : String) (visited : List (String × String))
    (r rLat rLng : ℚ) : CityInfo :=
  let citiesForCountry := backupFor country
  let availableCities := filterUnvisited country citiesForCountry visited
  if availableCities.isEmpty then
    match findOtherCountry country visited backupCities with
    | some pr =>
      backupDescriptor pr.1 (pr.2.getD (randIndex r pr.2.length) phantomTown)
    | none =>
      let city := citiesForCountry.headD phantomTown
      { name := city.name ++ " Outskirts", country := country, region := "",
        lat := city.lat + (rLat * (1/20) - 1/40),
        lng := city.lng + (rLng * (1/20) - 1/40),
        timezone := getTimezoneForCountry country,
        currency := getCurrencyForCountry country,
        language := getLanguageForCountry country,
        population := none, description := none, transportHubs := none }
  else
    backupDescriptor country
      (availableCities.getD (randIndex r availableCities.length) phantomTown)

/-- A candidate city parsed from the generation output; each field of the
free-text JSON object may be absent. -/
structure GenCoords where
  latitude : Option ℚ
  longitude : Option ℚ
deriving Repr, DecidableEq

/-- A generated candidate city. -/
structure GenCity where
  name : String
  country : Option String
  region : Option String
  population : Option ℕ
  description : Option String
  coordinates : Option GenCoords
  transportHubs : Option (List String)
deriving Repr, DecidableEq

/-- Stand-in for a JS out-of-bounds index over candidate lists; never
reached when the random draw lies in the unit interval. -/
def phantomGenCity : GenCity :=
  { name := "", country := none, region := none, population := none,
    description := none, coordinates := none, transportHubs := none }

/-- The duplicate filter of selectNextCity: drop candidates whose
lower-cased name and country (the candidate's own country when present and
non-empty, else the chosen next country) match a visited pair. -/
def filterNewCities (nextCountry : String) (cities : List GenCity)
    (visited : List (String × String)) : List GenCity :=
  cities.filter (fun city =>
    !(visited.any (fun v =>
      v.1 == jsToLower city.name &&
        v.2 == jsToLower (jsOr city.country nextCountry))))

/-- The descriptor built from a selected generated city in selectNextCity,
with the safety default for missing coordinates and the JS falsy
fallbacks. -/
def generatedDescriptor (nextCountry : String) (selectedCity : GenCity) :
    CityInfo :=
  let coords := selectedCity.coordinates.getD
    { latitude := none, longitude := none }
  { name := jsOr (some selectedCity.name) "Unknown Town",
    country := nextCountry,
    region := jsOr selectedCity.region "",
    lat := coords.latitude.getD 0,
    lng := coords.longitude.getD 0,
    timezone := getTimezoneForCountry nextCountry,
    currency := getCurrencyForCountry nextCountry,
    language := getLanguageForCountry nextCountry,
    population := some (selectedCity.population.getD 0),
    description := some (jsOr selectedCity.description ""),
    transportHubs := some (selectedCity.transportHubs.getD []) }

/-- TravelPlannerService.selectNextCity: the chosen next country and the
two candidate-generation outcomes (first call with count 5, retry with
count 8; a failed or unparseable call yields the empty list) are oracle
inputs.  Filtering drops visited pairs; when the first filter empties the
list and the retry's filter is also empty, the JS leaves potentialCities
bound to the original unfiltered list.  Only a fully empty list reaches
getBackupCity. -/
def selectNextCity (nextCountry : String) (gen1 gen2 : List GenCity)
    (locations : List DbLocation) (r rB rLat rLng : ℚ) : CityInfo :=
  let potentialCities := gen1
  let visitedCities := getVisitedCities locations
  let chosen :=
    if 0 < potentialCities.length ∧ 0 < visitedCities.length then
      let filteredCities := filterNewCities nextCountry potentialCities
        visitedCities
      if 0 < filteredCities.length then filteredCities
      else
        let moreCities := gen2
        if 0 < moreCities.length then
          let newFilteredCities := filterNewCities nextCountry moreCities
            visitedCities
          if 0 < newFilteredCities.length then newFilteredCities
          else potentialCities
        else potentialCities
    else potentialCities
  if chosen.isEmpty then getBackupCity nextCountry visitedCities rB rLat rLng
  else
    generatedDescriptor nextCountry
      (chosen.getD (randIndex r chosen.length) phantomGenCity)

/-- The location visited at journey start in the C2 failing scenario. -/
def repeatVisitLocation : DbLocation :=
  { id := 1, name := "Novi Sad", country := "Serbia", region := "",
    lat := 45, lng := 19, timezone := "Europe/Belgrade", currency := "RSD",
    language := "Serbian", is_current := true, is_visited := false,
    planned_arrival := 0, planned_duration := 12, current_day := 12,
    order_in_journey := 1 }

/-- The sole candidate the generation call returns in the C2 failing
scenario: the city already visited. -/
def repeatVisitGen : GenCity :=
  { name := "Novi Sad", country := none, region := none, population := none,
    description := none,
    coordinates := some { latitude := some 45, longitude := some 19 },
    transportHubs := none }

/-! Section: The move script (move_to_next_location.js)

The four database writes (INSERT location, INSERT transportation, UPDATE of
the old flags, UPDATE of the new flags) run sequentially with no
transaction; any error is caught by the surrounding try, which returns
false and leaves whatever was already written.  failAfter is the number of
writes that succeed before the cycle's first failure (4 or more means full
success); planner/distance results are oracle inputs; the haversine
distance itself is numeric and enters only as the distanceKm argument. -/

/-- The autoincrement id the next INSERT receives. -/
def nextLocationId (locations : List DbLocation) : ℕ :=
  (locations.map (fun l => l.id)).foldr max 0 + 1

/-- moveToNextLocation: read the current location (none aborts with the
database untouched), build the new location and the transportation leg
(planned stay 10 + floor(5 random), order one past the current location),
then perform the four writes in source order, stopping after failAfter of
them on a failure. -/
def moveToNextLocation (db : Db) (nextCity : CityInfo) (distanceKm : ℚ)
    (departureDate : ℤ) (rDur : ℚ) (failAfter : ℕ) : Db × Bool :=
  match db.locations.find? (fun l => l.is_current) with
  | none => (db, false)
  | some currentLocation =>
    let transportType := determineTransportType distanceKm
    let durationMinutes := estimateTravelTime distanceKm transportType
    let arrivalDate := departureDate + durationMinutes
    let plannedDuration := 10 + randIndex rDur 5
    let orderInJourney := currentLocation.order_in_journey + 1
    if failAfter = 0 then (db, false) else
    let newLocationId := nextLocationId db.locations
    let newLoc : DbLocation :=
      { id := newLocationId, name := nextCity.name,
        country := nextCity.country, region := nextCity.region,
        lat := nextCity.lat, lng := nextCity.lng,
        timezone := nextCity.timezone, currency := nextCity.currency,
        language := nextCity.language, is_current := false,
        is_visited := false, planned_arrival := arrivalDate,
        planned_duration := plannedDuration, current_day := 1,
        order_in_journey := orderInJourney }
    let db1 : Db := { db with locations := db.locations ++ [newLoc] }
    if failAfter = 1 then (db1, false) else
    let leg : TransportationRow :=
      { from_location_id := currentLocation.id,
        to_location_id := newLocationId, type := transportType,
        departure_time := departureDate, arrival_time := arrivalDate,
        duration_minutes := durationMinutes,
        distance_km := jsRound distanceKm,
        price := estimatePrice distanceKm transportType,
        currency := nextCity.currency }
    let db2 : Db := { db1 with transportation := db1.transportation ++ [leg] }
    if failAfter = 2 then (db2, false) else
    let db3 : Db := { db2 with locations := db2.locations.map (fun l =>
      if l.id = currentLocation.id then
        { l with is_current := false, is_visited := true } else l) }
    if failAfter = 3 then (db3, false) else
    let db4 : Db := { db3 with locations := db3.locations.map (fun l =>
      if l.id = newLocationId then
        { l with is_current := true, current_day := 1 } else l) }
    (db4, true)

/-- The planner output used in the move demos. -/
def moveDemoCity : CityInfo :=
  { name := "Subotica", country := "Serbia", region := "", lat := 46,
    lng := 19, timezone := "Europe/Belgrade", currency := "RSD",
    language := "Serbian", population := none, description := none,
    transportHubs := none }

/-- The one-location database the move demos start from. -/
def moveDemoDb : Db := { locations := [repeatVisitLocation], transportation := [] }

/-- Scenario B location: day 5 of a planned 14-day stay. -/
def scenarioBLocation : DbLocation :=
  { id := 1, name := "Ptuj", country := "Slovenia", region := "",
    lat := 46, lng := 16, timezone := "Europe/Ljubljana",
    currency := "EUR", language := "Slovenian", is_current := true,
    is_visited := false, planned_arrival := 0, planned_duration := 14,
    current_day := 5, order_in_journey := 1 }

/-- Demo current location on day 8 of a planned 14-day stay. -/
def demoLocation : DbLocation :=
  { id := 1, name := "Sopron", country := "Hungary", region := "",
    lat := 47, lng := 16, timezone := "Europe/Budapest",
    currency := "HUF", language := "Hungarian", is_current := true,
    is_visited := false, planned_arrival := 0, planned_duration := 14,
    current_day := 8, order_in_journey := 1 }

/-- Demo attraction POI at the demo location. -/
def demoPoi : PointOfInterest :=
  { id := 1, location_id := 1, name := "Old Town", type := "attraction",
    description := "", highlights := "",
    opening_hours := OpeningHours.hoursOf (some "9:00-17:00") (some "10:00-16:00"),
    website := none }

/-- Demo visit row for the demo POI, not yet included in a post. -/
def demoVisit : VisitRow :=
  { id := 1, poi_id := 1, visit_date := 3, included_in_post := false }

/-- A second demo attraction, already consumed by a published post. -/
def demoConsumedPoi : PointOfInterest :=
  { id := 2, location_id := 1, name := "Firewatch Tower", type := "attraction",
    description := "", highlights := "",
    opening_hours := OpeningHours.hoursOf (some "9:00-17:00") (some "10:00-16:00"),
    website := none }

/-- The consuming visit row of the second demo attraction. -/
def demoConsumedVisit : VisitRow :=
  { id := 2, poi_id := 2, visit_date := 2, included_in_post := true }

/-- The component of the selection pair belonging to a POI type. -/
def componentFor (ty : String)
    (pr : Option PointOfInterest × Option PointOfInterest) :
    Option PointOfInterest :=
  if ty = "restaurant" then pr.2 else pr.1

end Giovanni

namespace Giovanni

/-- Membership in the availability query result characterizes the
unconsumed POIs of the type at the location. -/
theorem mem_availableRows {pois : List PointOfInterest}
    {visits : List VisitRow} {locationId : ℕ} {ty : String}
    {x : PointOfInterest} :
    x ∈ availableRows pois visits locationId ty ↔
      x ∈ pois ∧ x.location_id = locationId ∧ x.type = ty ∧
        unconsumed visits x := by
  rw [availableRows, List.mem_flatMap]
  constructor
  · rintro ⟨a, ha, hx⟩
    by_cases hcond : (a.location_id == locationId && a.type == ty) = true
    · rw [if_pos hcond] at hx
      simp only [Bool.and_eq_true, beq_iff_eq] at hcond
      by_cases hemp : (visits.filter (fun v => v.poi_id == a.id)).isEmpty = true
      · rw [if_pos hemp] at hx
        rcases List.mem_singleton.mp hx with rfl
        exact ⟨ha, hcond.1, hcond.2, Or.inl (List.isEmpty_iff.mp hemp)⟩
      · rw [if_neg hemp] at hx
        rcases List.mem_map.mp hx with ⟨v, hv, rfl⟩
        rcases List.mem_filter.mp hv with ⟨hv1, hv2⟩
        rcases List.mem_filter.mp hv1 with ⟨hv3, hv4⟩
        refine ⟨ha, hcond.1, hcond.2, Or.inr ⟨v, hv3, ?_, ?_⟩⟩
        · exact beq_iff_eq.mp hv4
        · simpa using hv2
    · rw [if_neg hcond] at hx
      exact absurd hx (List.not_mem_nil x)
  · rintro ⟨hx, hloc, hty, hun⟩
    refine ⟨x, hx, ?_⟩
    rw [if_pos (by simp [hloc, hty])]
    rcases hun with hnil | ⟨v, hv, hvp, hvi⟩
    · rw [if_pos (List.isEmpty_iff.mpr hnil)]
      exact List.mem_singleton.mpr rfl
    · have hvmem : v ∈ visits.filter (fun w => w.poi_id == x.id) :=
        List.mem_filter.mpr ⟨hv, by simp [hvp]⟩
      rw [if_neg (fun hemp =>
        List.ne_nil_of_mem hvmem (List.isEmpty_iff.mp hemp))]
      exact List.mem_map.mpr ⟨v, List.mem_filter.mpr ⟨hvmem, by simp [hvi]⟩, rfl⟩

/-- The floored uniform draw stays below the list length. -/
theorem randIndex_lt {r : ℚ} {n : ℕ} (h0 : 0 ≤ r) (h1 : r < 1) (hn : 0 < n) :
    randIndex r n < n := by
  have hn' : (0 : ℚ) < n := by exact_mod_cast hn
  have hfl : 0 ≤ ⌊r * (n : ℚ)⌋ := Int.floor_nonneg.mpr (mul_nonneg h0 hn'.le)
  have hlt : ⌊r * (n : ℚ)⌋ < (n : ℤ) := by
    rw [Int.floor_lt]
    push_cast
    calc r * (n : ℚ) < 1 * n := by
          exact mul_lt_mul_of_pos_right h1 hn'
      _ = n := one_mul _
  rw [randIndex]
  omega

/-- The floored uniform draw hits index i exactly when the draw lies in the
half-open interval of width 1/n at i/n: the uniformity of the selection. -/
theorem randIndex_eq_iff {r : ℚ} {n : ℕ} (i : ℕ) (h0 : 0 ≤ r) (_h1 : r < 1)
    (hn : 0 < n) :
    randIndex r n = i ↔ (i : ℚ) / n ≤ r ∧ r < ((i : ℚ) + 1) / n := by
  have hn' : (0 : ℚ) < n := by exact_mod_cast hn
  have hfl : 0 ≤ ⌊r * (n : ℚ)⌋ := Int.floor_nonneg.mpr (mul_nonneg h0 hn'.le)
  rw [randIndex, show (⌊r * (n : ℚ)⌋.toNat = i ↔ ⌊r * (n : ℚ)⌋ = (i : ℤ)) from
    by omega]
  rw [Int.floor_eq_iff, div_le_iff₀ hn', lt_div_iff₀ hn']
  push_cast
  tauto

/-- An in-bounds getD returns a member of the list. -/
theorem getD_mem {α : Type} {l : List α} {i : ℕ} {d : α}
    (h : i < l.length) : l.getD i d ∈ l := by
  rw [List.getD_eq_getElem l d h]
  exact List.getElem_mem h

/-- headD of a nonempty list returns a member of the list. -/
theorem headD_mem {α : Type} {l : List α} {d : α} (h : l ≠ []) :
    l.headD d ∈ l := by
  cases l with
  | nil => exact absurd rfl h
  | cons a t => exact List.mem_cons_self a t

/-- C8: transport classification is a pure total function of distance with
strict thresholds: distance > 700 gives "airplane", 300 < distance ≤ 700
gives "train", distance ≤ 300 gives "bus"; the boundary values 700 and 300
resolve to the lower tier. -/
theorem determineTransportType_thresholds (d : ℚ) :
    (700 < d → determineTransportType d = "airplane") ∧
    (300 < d → d ≤ 700 → determineTransportType d = "train") ∧
    (d ≤ 300 → determineTransportType d = "bus") ∧
    determineTransportType 700 = "train" ∧
    determineTransportType 300 = "bus" := by
  refine ⟨?_, ?_, ?_, by norm_num [determineTransportType], by norm_num [determineTransportType]⟩
  · intro h
    simp [determineTransportType, h]
  · intro h1 h2
    rw [determineTransportType, if_neg (by exact not_lt.mpr h2), if_pos h1]
  · intro h
    rw [determineTransportType, if_neg (by linarith), if_neg (by exact not_lt.mpr h)]

/-- Witness for C8 at concrete distances 701, 700.01, 500 and 100. -/
theorem determineTransportType_thresholds_witness :
    determineTransportType 701 = "airplane" ∧
    determineTransportType (70001/100) = "airplane" ∧
    determineTransportType 500 = "train" ∧
    determineTransportType 100 = "bus" :=
  ⟨(determineTransportType_thresholds 701).1 (by norm_num),
   (determineTransportType_thresholds (70001/100)).1 (by norm_num),
   (determineTransportType_thresholds 500).2.1 (by norm_num) (by norm_num),
   (determineTransportType_thresholds 100).2.2.1 (by norm_num)⟩

/-- C6: the tolerant parse returns the strict parse result when the whole
input parses; otherwise the parse of the regex-extracted first
bracket-delimited candidate substring when it exists and parses; otherwise
the empty-array fallback.  Being a total Lean function it never raises: the
three cases below are exhaustive. -/
theorem safeJsonParse_spec {α : Type} (parse : String → Option α) (emptyArr : α)
    (s : String) :
    (∀ v, parse s = some v → safeJsonParse parse emptyArr s = v) ∧
    (parse s = none → ∀ t, extractJson s = some t → ∀ w, parse t = some w →
      safeJsonParse parse emptyArr s = w) ∧
    (parse s = none → ∀ t, extractJson s = some t → parse t = none →
      safeJsonParse parse emptyArr s = emptyArr) ∧
    (parse s = none → extractJson s = none →
      safeJsonParse parse emptyArr s = emptyArr) := by
  refine ⟨?_, ?_, ?_, ?_⟩
  · intro v hv
    simp [safeJsonParse, hv]
  · intro hs t ht w hw
    simp [safeJsonParse, hs, ht, hw]
  · intro hs t ht hw
    simp [safeJsonParse, hs, ht, hw]
  · intro hs ht
    simp [safeJsonParse, hs, ht]

/-- Witness for C6 on an input whose strict parse fails but whose extracted
bracket segment parses. -/
theorem safeJsonParse_spec_witness :
    safeJsonParse (fun t => if t = "[1]" then some 1 else none) 0 "x[1]y" = 1 :=
  (safeJsonParse_spec (fun t => if t = "[1]" then some 1 else none) 0
      "x[1]y").2.1 (by decide) "[1]" (by decide) 1 (by decide)

/-- The floored draw at 0 picks the first element. -/
theorem randIndex_zero (n : ℕ) : randIndex 0 n = 0 := by
  simp [randIndex]

/-- For findOtherCountry to answer, the answering country differs from the
requested one, appears in the table, and its filtered list is its nonempty
unvisited-backup list. -/
theorem findOtherCountry_eq_some {country : String}
    {visited : List (String × String)} {cn : String} {cs : List BackupTown} :
    ∀ {table : List (String × List BackupTown)},
    findOtherCountry country visited table = some (cn, cs) →
    cn ≠ country ∧ cs ≠ [] ∧
      ∃ cities, (cn, cities) ∈ table ∧
        cs = filterUnvisited cn cities visited := by
  intro table
  induction table with
  | nil => intro h; exact absurd h (by rw [findOtherCountry]; exact fun h => Option.noConfusion h)
  | cons hd rest ih =>
    rcases hd with ⟨c0, cities0⟩
    intro h
    rw [findOtherCountry] at h
    by_cases hc : c0 = country
    · rw [if_pos hc] at h
      rcases ih h with ⟨h1, h2, cities, hmem, hcs⟩
      exact ⟨h1, h2, cities, List.mem_cons_of_mem _ hmem, hcs⟩
    · rw [if_neg hc] at h
      by_cases hemp : (filterUnvisited c0 cities0 visited).isEmpty = true
      · rw [if_pos hemp] at h
        rcases ih h with ⟨h1, h2, cities, hmem, hcs⟩
        exact ⟨h1, h2, cities, List.mem_cons_of_mem _ hmem, hcs⟩
      · rw [if_neg hemp] at h
        rw [Option.some.injEq, Prod.mk.injEq] at h
        rcases h with ⟨rfl, rfl⟩
        exact ⟨hc, fun hnil => hemp (List.isEmpty_iff.mpr hnil),
          cities0, List.mem_cons_self _ _, rfl⟩

/-- findOtherCountry fails exactly when every other country's backup list
is fully visited. -/
theorem findOtherCountry_eq_none {country : String}
    {visited : List (String × String)} :
    ∀ {table : List (String × List BackupTown)},
    (findOtherCountry country visited table = none ↔
      ∀ pr ∈ table, pr.1 ≠ country →
        filterUnvisited pr.1 pr.2 visited = []) := by
  intro table
  induction table with
  | nil => simp [findOtherCountry]
  | cons hd rest ih =>
    rcases hd with ⟨c0, cities0⟩
    rw [findOtherCountry]
    by_cases hc : c0 = country
    · rw [if_pos hc, ih]
      constructor
      · intro hall pr hpr hne
        rcases List.mem_cons.mp hpr with rfl | hpr
        · exact absurd hc hne
        · exact hall pr hpr hne
      · intro hall pr hpr hne
        exact hall pr (List.mem_cons_of_mem _ hpr) hne
    · rw [if_neg hc]
      by_cases hemp : (filterUnvisited c0 cities0 visited).isEmpty = true
      · rw [if_pos hemp, ih]
        constructor
        · intro hall pr hpr hne
          rcases List.mem_cons.mp hpr with rfl | hpr
          · exact List.isEmpty_iff.mp hemp
          · exact hall pr hpr hne
        · intro hall pr hpr hne
          exact hall pr (List.mem_cons_of_mem _ hpr) hne
      · rw [if_neg hemp]
        constructor
        · intro h; exact absurd h (fun h => Option.noConfusion h)
        · intro hall
          exact absurd (hall (c0, cities0) (List.mem_cons_self _ _) hc)
            (fun hnil => hemp (List.isEmpty_iff.mpr hnil))

/-- C7: getBackupCity always yields a descriptor, in three tiers: an
unvisited backup town of the requested country when one remains; else an
unvisited town of the first other country still holding one, carrying that
country's locale metadata; else (every backup town of every country
visited) the pseudo-new location with perturbed coordinates and the name
suffix " Outskirts". -/
theorem getBackupCity_total (country : String)
    (visited : List (String × String)) (r rLat rLng : ℚ)
    (h0 : 0 ≤ r) (h1 : r < 1) :
    (filterUnvisited country (backupFor country) visited ≠ [] →
      ∃ town ∈ filterUnvisited country (backupFor country) visited,
        getBackupCity country visited r rLat rLng =
          backupDescriptor country town ∧
        visited.any (fun v =>
          v.1 == jsToLower town.name && v.2 == jsToLower country) = false) ∧
    (filterUnvisited country (backupFor country) visited = [] →
      ∀ cn cs, findOtherCountry country visited backupCities = some (cn, cs) →
        cn ≠ country ∧
        ∃ town ∈ cs,
          getBackupCity country visited r rLat rLng =
            backupDescriptor cn town ∧
          visited.any (fun v =>
            v.1 == jsToLower town.name && v.2 == jsToLower cn) = false) ∧
    (filterUnvisited country (backupFor country) visited = [] →
      findOtherCountry country visited backupCities = none →
      (∀ pr ∈ backupCities, pr.1 ≠ country →
        filterUnvisited pr.1 pr.2 visited = []) ∧
      getBackupCity country visited r rLat rLng =
        { name := ((backupFor country).headD phantomTown).name ++ " Outskirts",
          country := country, region := "",
          lat := ((backupFor country).headD phantomTown).lat
            + (rLat * (1/20) - 1/40),
          lng := ((backupFor country).headD phantomTown).lng
            + (rLng * (1/20) - 1/40),
          timezone := getTimezoneForCountry country,
          currency := getCurrencyForCountry country,
          language := getLanguageForCountry country,
          population := none, description := none, transportHubs := none }) := by
  refine ⟨?_, ?_, ?_⟩
  · intro hne
    have hemp : (filterUnvisited country (backupFor country) visited).isEmpty
        = false := Bool.eq_false_iff.mpr (fun h => hne (List.isEmpty_iff.mp h))
    have hlen : 0 < (filterUnvisited country (backupFor country)
        visited).length := List.length_pos.mpr hne
    have hmem := getD_mem (l := filterUnvisited country (backupFor country)
      visited) (d := phantomTown) (randIndex_lt h0 h1 hlen)
    refine ⟨_, hmem, ?_, ?_⟩
    · simp only [getBackupCity, hemp, Bool.false_eq_true, if_false]
    · have hpred := (List.mem_filter.mp hmem).2
      simpa using hpred
  · intro hnil cn cs hfind
    rcases findOtherCountry_eq_some hfind with ⟨hcn, hcsne, cities, _, rfl⟩
    have hempT : (filterUnvisited country (backupFor country)
        visited).isEmpty = true := List.isEmpty_iff.mpr hnil
    have hlen : 0 < (filterUnvisited cn cities visited).length :=
      List.length_pos.mpr hcsne
    have hmem := getD_mem (l := filterUnvisited cn cities visited)
      (d := phantomTown) (randIndex_lt h0 h1 hlen)
    refine ⟨hcn, _, hmem, ?_, ?_⟩
    · simp only [getBackupCity, hempT, if_true, hfind]
    · have hpred := (List.mem_filter.mp hmem).2
      simpa using hpred
  · intro hnil hnone
    have hempT : (filterUnvisited country (backupFor country)
        visited).isEmpty = true := List.isEmpty_iff.mpr hnil
    refine ⟨findOtherCountry_eq_none.mp hnone, ?_⟩
    simp only [getBackupCity, hempT, if_true, hnone]

/-- Witness for C7: with nothing visited, the first tier fires for
Serbia. -/
theorem getBackupCity_total_witness :
    ∃ town ∈ filterUnvisited "Serbia" (backupFor "Serbia") [],
      getBackupCity "Serbia" [] 0 0 0 = backupDescriptor "Serbia" town ∧
      (([] : List (String × String)).any (fun v =>
        v.1 == jsToLower town.name && v.2 == jsToLower "Serbia")) = false :=
  (getBackupCity_total "Serbia" [] 0 0 0 (le_refl 0) (by norm_num)).1
    (by decide)

/-- C2 failing input: the journey has visited Novi Sad (Serbia); the
candidate call returns only Novi Sad, the retry returns nothing, and
selectNextCity hands back the already-visited city instead of falling
through to the backup table. -/
theorem selectNextCity_repeats_visited :
    (selectNextCity "Serbia" [repeatVisitGen] [] [repeatVisitLocation]
        0 0 0 0).name = "Novi Sad" ∧
    (selectNextCity "Serbia" [repeatVisitGen] [] [repeatVisitLocation]
        0 0 0 0).country = "Serbia" ∧
    (getVisitedCities [repeatVisitLocation]).any (fun v =>
      v.1 == jsToLower (selectNextCity "Serbia" [repeatVisitGen] []
        [repeatVisitLocation] 0 0 0 0).name &&
      v.2 == jsToLower (selectNextCity "Serbia" [repeatVisitGen] []
        [repeatVisitLocation] 0 0 0 0).country) = true := by
  simp only [selectNextCity, randIndex_zero]
  decide

/-- C4: the move decision equals the logical OR of the three clauses
(planned duration reached, hard cap reached with default 21, no unvisited
attraction remains together with the minimum stay with default 7); and in
Scenario B (day 5 of 14, zero unvisited attractions, minimum 7 days) the
decision is to stay. -/
theorem checkLocationStatus_shouldMove
    (locations : List DbLocation) (pois : List PointOfInterest)
    (visits : List VisitRow) (minDaysEnv maxDaysEnv : Option ℕ)
    (cur : DbLocation)
    (h : locations.find? (fun l => l.is_current) = some cur) :
    (checkLocationStatus locations pois visits minDaysEnv maxDaysEnv = true ↔
      (cur.planned_duration ≤ cur.current_day ∨
       parseIntOr 21 maxDaysEnv ≤ cur.current_day ∨
       (countUnvisitedAttractions pois visits cur.id = 0 ∧
        parseIntOr 7 minDaysEnv ≤ cur.current_day))) ∧
    checkLocationStatus [scenarioBLocation] [] [] (some 7) none = false := by
  constructor
  · rw [checkLocationStatus, h]
    simp only [Bool.or_eq_true, Bool.and_eq_true, decide_eq_true_eq, beq_iff_eq]
    tauto
  · decide

/-- Witness for C4 at the Scenario B database. -/
theorem checkLocationStatus_shouldMove_witness :
    ((checkLocationStatus [scenarioBLocation] [] [] (some 7) none = true ↔
      (scenarioBLocation.planned_duration ≤ scenarioBLocation.current_day ∨
       parseIntOr 21 none ≤ scenarioBLocation.current_day ∨
       (countUnvisitedAttractions [] [] scenarioBLocation.id = 0 ∧
        parseIntOr 7 (some 7) ≤ scenarioBLocation.current_day))) ∧
     checkLocationStatus [scenarioBLocation] [] [] (some 7) none = false) :=
  checkLocationStatus_shouldMove [scenarioBLocation] [] [] (some 7) none
    scenarioBLocation rfl

/-- C9: for the move decision an attraction counts as visited as soon as any
visits row exists for it (included_in_post is ignored), while the selection
query still offers a POI whose visit rows have included_in_post = 0; the
demo database shows a state where the no-unvisited-attractions clause fires
although selection still offers the attraction. -/
theorem moveCount_vs_selection_asymmetry
    (pois : List PointOfInterest) (visits : List VisitRow) (locId : ℕ)
    (p : PointOfInterest) (v : VisitRow)
    (hp : p ∈ pois) (hloc : p.location_id = locId)
    (hty : p.type = "attraction")
    (hv : v ∈ visits) (hvp : v.poi_id = p.id) :
    p ∉ unvisitedForMove pois visits locId ∧
    (v.included_in_post = false → p ∈ availableRows pois visits locId "attraction") ∧
    countUnvisitedAttractions [demoPoi] [demoVisit] 1 = 0 ∧
    availableRows [demoPoi] [demoVisit] 1 "attraction" = [demoPoi] ∧
    checkLocationStatus [demoLocation] [demoPoi] [demoVisit] none none = true := by
  refine ⟨?_, ?_, by decide, by decide, by decide⟩
  · intro hmem
    rw [unvisitedForMove, List.mem_filter] at hmem
    have h2 := hmem.2
    simp only [Bool.and_eq_true, List.all_eq_true, bne_iff_ne] at h2
    exact h2.2 v hv hvp
  · intro hincl
    rw [availableRows, List.mem_flatMap]
    refine ⟨p, hp, ?_⟩
    have hcond : (p.location_id == locId && p.type == "attraction") = true := by
      simp [hloc, hty]
    rw [if_pos hcond]
    have hvmem : v ∈ visits.filter (fun w => w.poi_id == p.id) := by
      rw [List.mem_filter]
      exact ⟨hv, by simp [hvp]⟩
    have hne : (visits.filter (fun w => w.poi_id == p.id)) ≠ [] :=
      List.ne_nil_of_mem hvmem
    rw [if_neg (fun hemp => hne (List.isEmpty_iff.mp hemp))]
    rw [List.mem_map]
    refine ⟨v, ?_, rfl⟩
    rw [List.mem_filter]
    exact ⟨hvmem, by simp [hincl]⟩

/-- Witness for C9 at the demo database. -/
theorem moveCount_vs_selection_asymmetry_witness :
    (demoPoi ∉ unvisitedForMove [demoPoi] [demoVisit] 1 ∧
     (demoVisit.included_in_post = false →
       demoPoi ∈ availableRows [demoPoi] [demoVisit] 1 "attraction") ∧
     countUnvisitedAttractions [demoPoi] [demoVisit] 1 = 0 ∧
     availableRows [demoPoi] [demoVisit] 1 "attraction" = [demoPoi] ∧
     checkLocationStatus [demoLocation] [demoPoi] [demoVisit] none none = true) :=
  moveCount_vs_selection_asymmetry [demoPoi] [demoVisit] 1 demoPoi demoVisit
    (by decide) (by decide) (by decide) (by decide) (by decide)

/-- When the availability query is nonempty, the per-type selection leaves
the table unchanged and returns an element of the available rows. -/
theorem selectForType_of_available
    (pois : List PointOfInterest) (visits : List VisitRow) (locationId : ℕ)
    (ty locationName : String) (gen : List GenPlace) (nextId date : ℕ)
    (r : ℚ) (h0 : 0 ≤ r) (h1 : r < 1)
    (hne : availableRows pois visits locationId ty ≠ []) :
    (selectForType pois visits locationId ty locationName gen nextId date r).2
        = pois ∧
    ∀ x, (selectForType pois visits locationId ty locationName gen nextId
        date r).1 = some x →
      x ∈ availableRows pois visits locationId ty := by
  have hemp : (availableRows pois visits locationId ty).isEmpty = false :=
    Bool.eq_false_iff.mpr (fun h => hne (List.isEmpty_iff.mp h))
  have hpool : selectionPool pois visits locationId ty locationName gen nextId
      = (availableRows pois visits locationId ty, pois) := by
    simp only [selectionPool, hemp, Bool.false_eq_true, if_false]
  constructor
  · simp only [selectForType, hpool]
  · intro x hx
    simp only [selectForType, hpool, openPool] at hx
    split at hx
    case isTrue hop =>
      rw [Option.some.injEq] at hx
      subst hx
      have hidx := randIndex_lt h0 h1 hop
      have hmem := getD_mem (d := phantomPoi) hidx
      exact (List.mem_filter.mp hmem).1
    case isFalse hop =>
      split at hx
      case isTrue hlen =>
        rw [Option.some.injEq] at hx
        subst hx
        exact headD_mem hne
      case isFalse hlen =>
        exact absurd hx (by simp)

/-- The attraction half can only append attraction-typed rows to the
points_of_interest table. -/
theorem selectForType_attraction_extends
    (pois : List PointOfInterest) (visits : List VisitRow) (locationId : ℕ)
    (locationName : String) (gen : List GenPlace) (nextId date : ℕ) (r : ℚ) :
    ∃ extra, (selectForType pois visits locationId "attraction" locationName
        gen nextId date r).2 = pois ++ extra ∧
      ∀ e ∈ extra, e.type = "attraction" := by
  simp only [selectForType, selectionPool]
  by_cases hemp :
      (availableRows pois visits locationId "attraction").isEmpty = true
  · by_cases hgen : gen.isEmpty = true
    · refine ⟨[defaultPoiFor "attraction" locationName locationId nextId],
        ?_, ?_⟩
      · simp [hemp, hgen]
      · intro e he
        rcases List.mem_singleton.mp he with rfl
        simp [defaultPoiFor]
    · refine ⟨insertedFromGen "attraction" locationName locationId nextId gen,
        ?_, ?_⟩
      · simp [hemp, hgen]
      · intro e he
        rcases List.mem_map.mp he with ⟨pr, _, rfl⟩
        rfl
  · refine ⟨[], by simp [hemp], by simp⟩

/-- Appending rows of a different type does not change the availability
query of a type. -/
theorem availableRows_append_of_ne_type
    (pois extra : List PointOfInterest) (visits : List VisitRow)
    (locationId : ℕ) (ty : String) (h : ∀ e ∈ extra, e.type ≠ ty) :
    availableRows (pois ++ extra) visits locationId ty
      = availableRows pois visits locationId ty := by
  rw [availableRows, availableRows, List.flatMap_append]
  have hnil : (extra.flatMap (fun poi =>
      if poi.location_id == locationId && poi.type == ty then
        let vs := visits.filter (fun v => v.poi_id == poi.id)
        if vs.isEmpty then [poi]
        else (vs.filter (fun v => v.included_in_post == false)).map
          (fun _ => poi)
      else [])) = [] := by
    rw [List.flatMap_eq_nil_iff]
    intro e he
    rw [if_neg]
    simp only [Bool.and_eq_true, beq_iff_eq]
    exact fun hc => h e he hc.2
  rw [hnil, List.append_nil]

/-- The shape of selectPlacesToVisit once the location lookup succeeds. -/
theorem selectPlacesToVisit_eq
    (locations : List DbLocation) (pois : List PointOfInterest)
    (visits : List VisitRow) (locationId : ℕ) (genA genR : List GenPlace)
    (nextId date : ℕ) (rA rR : ℚ) (loc : DbLocation)
    (hloc : locations.find? (fun l => l.id == locationId) = some loc) :
    selectPlacesToVisit locations pois visits locationId genA genR nextId
        date rA rR =
      ((selectForType pois visits locationId "attraction" loc.name genA
          nextId date rA).1,
       (selectForType
          (selectForType pois visits locationId "attraction" loc.name genA
            nextId date rA).2
          visits locationId "restaurant" loc.name genR
          (nextId + ((selectForType pois visits locationId "attraction"
            loc.name genA nextId date rA).2.length - pois.length))
          date rR).1) := by
  rw [selectPlacesToVisit, hloc]

/-- C3: when some POI of the type at the location is consumed (has visit
rows, all included in a post) while another is unconsumed, the daily
selection never returns the consumed POI and does not regenerate (the table
is untouched and the selection comes from the available rows); and
regeneration can occur exactly when every POI of the type is consumed. -/
theorem selectPlacesToVisit_no_reuse
    (locations : List DbLocation) (pois : List PointOfInterest)
    (visits : List VisitRow) (locationId : ℕ) (genA genR : List GenPlace)
    (nextId date : ℕ) (rA rR : ℚ) (loc : DbLocation) (ty : String)
    (p q : PointOfInterest)
    (hloc : locations.find? (fun l => l.id == locationId) = some loc)
    (hty : ty = "attraction" ∨ ty = "restaurant")
    (hp : ¬ unconsumed visits p)
    (hq : q ∈ pois) (hql : q.location_id = locationId) (hqt : q.type = ty)
    (hqu : unconsumed visits q)
    (h0A : 0 ≤ rA) (h1A : rA < 1) (h0R : 0 ≤ rR) (h1R : rR < 1) :
    availableRows pois visits locationId ty ≠ [] ∧
    (availableRows pois visits locationId ty = [] ↔
      ∀ z ∈ pois, z.location_id = locationId → z.type = ty →
        ¬ unconsumed visits z) ∧
    ∀ x, componentFor ty (selectPlacesToVisit locations pois visits
        locationId genA genR nextId date rA rR) = some x →
      x ∈ availableRows pois visits locationId ty ∧ x ≠ p := by
  have hqa : q ∈ availableRows pois visits locationId ty :=
    mem_availableRows.mpr ⟨hq, hql, hqt, hqu⟩
  have hne := List.ne_nil_of_mem hqa
  refine ⟨hne, ?_, ?_⟩
  · constructor
    · intro hnil z hz hzl hzt hzu
      have hmem := mem_availableRows.mpr ⟨hz, hzl, hzt, hzu⟩
      rw [hnil] at hmem
      exact List.not_mem_nil z hmem
    · intro hall
      apply List.eq_nil_iff_forall_not_mem.mpr
      intro x hx
      rcases mem_availableRows.mp hx with ⟨hx1, hx2, hx3, hx4⟩
      exact hall x hx1 hx2 hx3 hx4
  · intro x hx
    rw [selectPlacesToVisit_eq locations pois visits locationId genA genR
      nextId date rA rR loc hloc] at hx
    have hxp : x ∈ availableRows pois visits locationId ty := by
      rcases hty with rfl | rfl
      · rw [componentFor, if_neg (by decide)] at hx
        exact (selectForType_of_available pois visits locationId "attraction"
          loc.name genA nextId date rA h0A h1A hne).2 x hx
      · rw [componentFor, if_pos rfl] at hx
        rcases selectForType_attraction_extends pois visits locationId
          loc.name genA nextId date rA with ⟨extra, hext, hextty⟩
        have hstable : availableRows (selectForType pois visits locationId
            "attraction" loc.name genA nextId date rA).2 visits locationId
            "restaurant" = availableRows pois visits locationId "restaurant" := by
          rw [hext]
          exact availableRows_append_of_ne_type pois extra visits locationId
            "restaurant" (fun e he => by rw [hextty e he]; decide)
        have hne2 : availableRows (selectForType pois visits locationId
            "attraction" loc.name genA nextId date rA).2 visits locationId
            "restaurant" ≠ [] := by rw [hstable]; exact hne
        have := (selectForType_of_available _ visits locationId "restaurant"
          loc.name genR _ date rR h0R h1R hne2).2 x hx
        rw [hstable] at this
        exact this
    refine ⟨hxp, fun heq => ?_⟩
    subst heq
    exact hp (mem_availableRows.mp hxp).2.2.2

/-- Witness for C3: the consumed demo attraction is never returned while
the unconsumed one is still on offer. -/
theorem selectPlacesToVisit_no_reuse_witness :
    availableRows [demoPoi, demoConsumedPoi] [demoVisit, demoConsumedVisit] 1
        "attraction" ≠ [] ∧
    (availableRows [demoPoi, demoConsumedPoi] [demoVisit, demoConsumedVisit] 1
        "attraction" = [] ↔
      ∀ z ∈ [demoPoi, demoConsumedPoi], z.location_id = 1 →
        z.type = "attraction" →
        ¬ unconsumed [demoVisit, demoConsumedVisit] z) ∧
    ∀ x, componentFor "attraction" (selectPlacesToVisit [demoLocation]
        [demoPoi, demoConsumedPoi] [demoVisit, demoConsumedVisit] 1 [] [] 3 9
        0 0) = some x →
      x ∈ availableRows [demoPoi, demoConsumedPoi]
          [demoVisit, demoConsumedVisit] 1 "attraction" ∧
        x ≠ demoConsumedPoi :=
  selectPlacesToVisit_no_reuse [demoLocation] [demoPoi, demoConsumedPoi]
    [demoVisit, demoConsumedVisit] 1 [] [] 3 9 0 0 demoLocation "attraction"
    demoConsumedPoi demoPoi rfl (Or.inl rfl) (by decide) (by decide)
    (by decide) (by decide) (by decide) (by norm_num) (by norm_num)
    (by norm_num) (by norm_num)

/-- C5: the per-type selection filters the list to the POIs open yesterday
(missing or malformed hours count as open), picks uniformly at random from
the filtered list (the index is the floored draw, below the length, and
hits i exactly on the interval of width 1 over the length), and falls back
to the first element of the unfiltered list when the filtered list is
empty. -/
theorem selectForType_open_yesterday
    (pois : List PointOfInterest) (visits : List VisitRow) (locationId : ℕ)
    (ty locationName : String) (gen : List GenPlace) (nextId date : ℕ)
    (r : ℚ) (h0 : 0 ≤ r) (h1 : r < 1) :
    (∀ z : PointOfInterest,
      z.opening_hours = OpeningHours.missing ∨
        z.opening_hours = OpeningHours.malformed →
      isOpenYesterday z date = true) ∧
    (openPool pois visits locationId ty locationName gen nextId date ≠ [] →
      (selectForType pois visits locationId ty locationName gen nextId date
          r).1 =
        some ((openPool pois visits locationId ty locationName gen nextId
            date).getD
          (randIndex r (openPool pois visits locationId ty locationName gen
            nextId date).length) phantomPoi) ∧
      randIndex r (openPool pois visits locationId ty locationName gen nextId
          date).length <
        (openPool pois visits locationId ty locationName gen nextId
          date).length ∧
      ∀ i : ℕ,
        (randIndex r (openPool pois visits locationId ty locationName gen
            nextId date).length = i ↔
          (i : ℚ) / (openPool pois visits locationId ty locationName gen
              nextId date).length ≤ r ∧
          r < ((i : ℚ) + 1) / (openPool pois visits locationId ty
              locationName gen nextId date).length)) ∧
    (openPool pois visits locationId ty locationName gen nextId date = [] →
      (selectionPool pois visits locationId ty locationName gen nextId).1
          ≠ [] →
      (selectForType pois visits locationId ty locationName gen nextId date
          r).1 =
        some ((selectionPool pois visits locationId ty locationName gen
          nextId).1.headD phantomPoi) ∧
      (selectionPool pois visits locationId ty locationName gen
          nextId).1.headD phantomPoi ∈
        (selectionPool pois visits locationId ty locationName gen
          nextId).1) := by
  refine ⟨?_, ?_, ?_⟩
  · intro z hz
    rcases hz with hz | hz <;> rw [isOpenYesterday, hz]
  · intro hop
    have hlen : 0 < (openPool pois visits locationId ty locationName gen
        nextId date).length := List.length_pos.mpr hop
    refine ⟨?_, randIndex_lt h0 h1 hlen, fun i => randIndex_eq_iff i h0 h1 hlen⟩
    simp only [selectForType]
    rw [if_pos hlen]
  · intro hop hpool
    have hlen : 0 < (selectionPool pois visits locationId ty locationName gen
        nextId).1.length := List.length_pos.mpr hpool
    constructor
    · simp only [selectForType]
      rw [if_neg (by rw [hop]; simp), if_pos hlen]
    · exact headD_mem hpool

/-- Witness for C5 on a database whose only POI is closed yesterday,
exercising the fallback to the unfiltered list. -/
theorem selectForType_open_yesterday_witness :
    ((∀ z : PointOfInterest,
      z.opening_hours = OpeningHours.missing ∨
        z.opening_hours = OpeningHours.malformed →
      isOpenYesterday z 9 = true) ∧
    (openPool [demoPoi] [] 1 "attraction" "Sopron" [] 2 9 ≠ [] →
      (selectForType [demoPoi] [] 1 "attraction" "Sopron" [] 2 9 0).1 =
        some ((openPool [demoPoi] [] 1 "attraction" "Sopron" [] 2 9).getD
          (randIndex 0 (openPool [demoPoi] [] 1 "attraction" "Sopron" [] 2
            9).length) phantomPoi) ∧
      randIndex 0 (openPool [demoPoi] [] 1 "attraction" "Sopron" [] 2
          9).length <
        (openPool [demoPoi] [] 1 "attraction" "Sopron" [] 2 9).length ∧
      ∀ i : ℕ,
        (randIndex 0 (openPool [demoPoi] [] 1 "attraction" "Sopron" [] 2
            9).length = i ↔
          (i : ℚ) / (openPool [demoPoi] [] 1 "attraction" "Sopron" [] 2
              9).length ≤ 0 ∧
          (0 : ℚ) < ((i : ℚ) + 1) / (openPool [demoPoi] [] 1 "attraction"
              "Sopron" [] 2 9).length)) ∧
    (openPool [demoPoi] [] 1 "attraction" "Sopron" [] 2 9 = [] →
      (selectionPool [demoPoi] [] 1 "attraction" "Sopron" [] 2).1 ≠ [] →
      (selectForType [demoPoi] [] 1 "attraction" "Sopron" [] 2 9 0).1 =
        some ((selectionPool [demoPoi] [] 1 "attraction" "Sopron" []
          2).1.headD phantomPoi) ∧
      (selectionPool [demoPoi] [] 1 "attraction" "Sopron" [] 2).1.headD
          phantomPoi ∈
        (selectionPool [demoPoi] [] 1 "attraction" "Sopron" [] 2).1)) :=
  selectForType_open_yesterday [demoPoi] [] 1 "attraction" "Sopron" [] 2 9 0
    (le_refl 0) (by norm_num)

/-- Every id in the table is bounded by the running maximum. -/
theorem id_le_foldMax : ∀ (l : List DbLocation) (a : DbLocation), a ∈ l →
    a.id ≤ (l.map (fun x => x.id)).foldr max 0
  | [], a, h => absurd h (List.not_mem_nil a)
  | hd :: tl, a, h => by
    simp only [List.map_cons, List.foldr_cons]
    rcases List.mem_cons.mp h with rfl | h2
    · exact le_max_left _ _
    · exact le_trans (id_le_foldMax tl a h2) (le_max_right _ _)

/-- The id a fresh INSERT receives is new. -/
theorem id_lt_nextLocationId {l : List DbLocation} {a : DbLocation}
    (h : a ∈ l) : a.id < nextLocationId l := by
  have := id_le_foldMax l a h
  rw [nextLocationId]
  omega

/-- C1 failing input: one location is current; the move clears the old
current flag and then fails on the final UPDATE (three of the four writes
succeed), leaving zero current locations.  A full run (failAfter 4) ends
with exactly one. -/
theorem moveToNextLocation_midway_failure_zero_current :
    countCurrent moveDemoDb = 1 ∧
    (moveToNextLocation moveDemoDb moveDemoCity 100 0 0 3).2 = false ∧
    countCurrent (moveToNextLocation moveDemoDb moveDemoCity 100 0 0 3).1
      = 0 ∧
    (moveToNextLocation moveDemoDb moveDemoCity 100 0 0 4).2 = true ∧
    countCurrent (moveToNextLocation moveDemoDb moveDemoCity 100 0 0 4).1
      = 1 :=
  ⟨by decide, by decide, by decide, by decide, by decide⟩

/-- A row distinct from the old current location and carrying the fresh id
survives the first UPDATE untouched and receives the current flag and day 1
from the second UPDATE. -/
theorem mem_after_flag_updates (L : List DbLocation) (NL : DbLocation)
    (curId newId : ℕ) (hmem : NL ∈ L) (hne : ¬ NL.id = curId)
    (hid : NL.id = newId) :
    { NL with is_current := true, current_day := 1 } ∈
      (L.map (fun l => if l.id = curId then
        { l with is_current := false, is_visited := true } else l)).map
        (fun l => if l.id = newId then
          { l with is_current := true, current_day := 1 } else l) := by
  have hm2 := List.mem_map_of_mem (fun l => if l.id = curId then
    { l with is_current := false, is_visited := true } else l) hmem
  have e1 : (fun l => if l.id = curId then
      { l with is_current := false, is_visited := true } else l) NL = NL :=
    if_neg hne
  rw [e1] at hm2
  have hm3 := List.mem_map_of_mem (fun l => if l.id = newId then
    { l with is_current := true, current_day := 1 } else l) hm2
  have e2 : (fun l => if l.id = newId then
      { l with is_current := true, current_day := 1 } else l) NL =
      { NL with is_current := true, current_day := 1 } := if_pos hid
  rw [e2] at hm3
  exact hm3

/-- C10: on a successful move the inserted location's planned stay is
10 plus the floored five-way draw, so it lies in 10..14 and hits each k
exactly on a draw interval of width one fifth; and its order_in_journey is
the current location's plus one.  The record ends up current with
current_day 1 in the final table. -/
theorem moveToNextLocation_duration_and_order
    (db : Db) (nextCity : CityInfo) (distanceKm : ℚ) (departureDate : ℤ)
    (rDur : ℚ) (failAfter : ℕ) (cur : DbLocation)
    (hcur : db.locations.find? (fun l => l.is_current) = some cur)
    (h0 : 0 ≤ rDur) (h1 : rDur < 1) (hfa : 4 ≤ failAfter) :
    10 ≤ 10 + randIndex rDur 5 ∧
    10 + randIndex rDur 5 ≤ 14 ∧
    (∀ k : ℕ, 10 ≤ k → k ≤ 14 →
      (10 + randIndex rDur 5 = k ↔
        ((k : ℚ) - 10) / 5 ≤ rDur ∧ rDur < ((k : ℚ) - 9) / 5)) ∧
    ∃ nl ∈ (moveToNextLocation db nextCity distanceKm departureDate rDur
        failAfter).1.locations,
      nl.id = nextLocationId db.locations ∧
      nl.planned_duration = 10 + randIndex rDur 5 ∧
      nl.order_in_journey = cur.order_in_journey + 1 ∧
      nl.is_current = true ∧ nl.current_day = 1 := by
  have hlt5 : randIndex rDur 5 < 5 := randIndex_lt h0 h1 (by norm_num)
  refine ⟨Nat.le_add_right 10 _, by omega, ?_, ?_⟩
  · intro k hk1 hk2
    rw [show (10 + randIndex rDur 5 = k ↔ randIndex rDur 5 = k - 10) from
      by omega]
    rw [randIndex_eq_iff (k - 10) h0 h1 (by norm_num)]
    rw [Nat.cast_sub hk1]
    push_cast
    constructor
    · rintro ⟨ha, hb⟩
      exact ⟨by linarith, by linarith⟩
    · rintro ⟨ha, hb⟩
      exact ⟨by linarith, by linarith⟩
  · have hcurmem := List.mem_of_find?_eq_some hcur
    have hne : ¬ nextLocationId db.locations = cur.id :=
      Nat.ne_of_gt (id_lt_nextLocationId hcurmem)
    simp only [moveToNextLocation, hcur]
    rw [if_neg (show ¬failAfter = 0 by omega),
      if_neg (show ¬failAfter = 1 by omega),
      if_neg (show ¬failAfter = 2 by omega),
      if_neg (show ¬failAfter = 3 by omega)]
    exact ⟨_, mem_after_flag_updates _ _ cur.id _
      (List.mem_append_right _ (List.mem_singleton.mpr rfl)) hne rfl,
      rfl, rfl, rfl, rfl, rfl⟩

/-- Witness for C10 on the demo database at draw one half (a 12-day stay). -/
theorem moveToNextLocation_duration_and_order_witness :
    10 ≤ 10 + randIndex (1/2) 5 ∧
    10 + randIndex (1/2) 5 ≤ 14 ∧
    (∀ k : ℕ, 10 ≤ k → k ≤ 14 →
      (10 + randIndex (1/2) 5 = k ↔
        ((k : ℚ) - 10) / 5 ≤ (1/2 : ℚ) ∧ (1/2 : ℚ) < ((k : ℚ) - 9) / 5)) ∧
    ∃ nl ∈ (moveToNextLocation moveDemoDb moveDemoCity 100 0 (1/2)
        4).1.locations,
      nl.id = nextLocationId moveDemoDb.locations ∧
      nl.planned_duration = 10 + randIndex (1/2) 5 ∧
      nl.order_in_journey = repeatVisitLocation.order_in_journey + 1 ∧
      nl.is_current = true ∧ nl.current_day = 1 :=
  moveToNextLocation_duration_and_order moveDemoDb moveDemoCity 100 0 (1/2) 4
    repeatVisitLocation rfl (by norm_num) (by norm_num) (by norm_num)

end Giovanni
